import Mathlib

/-!
Verification development for the nats-events-adapter repository.

The Python source (src/config.py, src/nats_client.py, src/monitor.py,
src/file_listener.py) is shallowly embedded below.  Network I/O and the
broker are modelled by explicit outcome parameters (what each attempted
operation would return) and by an explicit broker-state record; Python
exceptions become explicit outcome constructors; `await asyncio.sleep(d)`
becomes an entry `d` in a list of performed sleeps.
-/

namespace NatsEvents

/-- Outcome of one `nats.connect(**options)` call inside
`NatsClient.connect` (src/nats_client.py lines 64-87).  The three
transient exception classes named in the `except` clause are kept
separate; `otherError` is any other exception (the bare
`except Exception` clause). -/
inductive AttemptOutcome
  | success
  | timeoutErr        -- nats.errors.TimeoutError
  | connClosedErr     -- nats.errors.ConnectionClosedError
  | noServersErr      -- nats.errors.NoServersError
  | otherError        -- any other exception
  deriving DecidableEq, Repr

/-- Whether an attempt outcome is caught by the
`except (TimeoutError, ConnectionClosedError, NoServersError)` clause. -/
def AttemptOutcome.isTransient : AttemptOutcome → Bool
  | .timeoutErr => true
  | .connClosedErr => true
  | .noServersErr => true
  | _ => false

/-- Connection state of a `NatsClient` (`self.nc is not None and
self.nc.is_connected`, src/nats_client.py line 265). -/
structure ClientState where
  connected : Bool
  deriving DecidableEq, Repr

/-- Embeds `NatsClient.is_connected` (src/nats_client.py lines 258-265). -/
def is_connected (st : ClientState) : Bool := st.connected

/-- Observable result of a `NatsClient.connect` call: the client state
afterwards, the returned boolean, the number of `nats.connect` calls
performed, and the list of backoff sleeps performed, in order. -/
structure ConnectResult where
  state    : ClientState
  result   : Bool
  attempts : Nat
  sleeps   : List Nat
  deriving DecidableEq, Repr

/-- The `while retry_attempts < max_retries` loop of `NatsClient.connect`
(src/nats_client.py lines 64-89).  `outcome i` is what the `nats.connect`
call would do when the mutable `retry_attempts` equals `i`; `ra` is the
current value of `retry_attempts`, `d` the current value of
`current_delay`.  `fuel` is the structural-recursion counter; the loop is
entered only while `ra < maxRetries`, so callers pass
`fuel = maxRetries - ra` and the invariant `fuel + ra = maxRetries` makes
`fuel = 0` coincide with the loop condition failing (the trailing
`return False` on line 89). -/
def connectLoop (outcome : Nat → AttemptOutcome) (maxRetries : Nat) :
    Nat → Nat → Nat → ConnectResult
  | 0, _, _ => ⟨⟨false⟩, false, 0, []⟩
  | fuel + 1, ra, d =>
    match outcome ra with
    | .success => ⟨⟨true⟩, true, 1, []⟩
    | .timeoutErr | .connClosedErr | .noServersErr =>
      -- retry_attempts += 1
      if ra + 1 < maxRetries then
        -- sleep(current_delay); current_delay *= 2; back to the loop head
        let r := connectLoop outcome maxRetries fuel (ra + 1) (d * 2)
        ⟨r.state, r.result, r.attempts + 1, d :: r.sleeps⟩
      else
        -- "Failed to connect after {max_retries} attempts"; return False
        ⟨⟨false⟩, false, 1, []⟩
    | .otherError => ⟨⟨false⟩, false, 1, []⟩

/-- Embeds `NatsClient.connect(max_retries, retry_delay)`
(src/nats_client.py lines 47-89): an already-connected client returns
`True` at once; otherwise the retry loop runs from `retry_attempts = 0`
and `current_delay = retry_delay`. -/
def connect (st : ClientState) (outcome : Nat → AttemptOutcome)
    (maxRetries retryDelay : Nat) : ConnectResult :=
  if is_connected st then ⟨st, true, 0, []⟩
  else connectLoop outcome maxRetries maxRetries 0 retryDelay

/-- The sequence of backoff delays the retry loop produces:
`d, 2*d, 4*d, ...` (`n` entries, each double the previous). -/
def geomList (d : Nat) : Nat → List Nat
  | 0 => []
  | n + 1 => d :: geomList (d * 2) n

/-- A JSON value, as produced by Python's `json.loads` and consumed by
`json.dumps`.  Python numbers are modelled as rationals (exact values;
`json.dumps` followed by `json.loads` is value-preserving on floats, so
the text layer is modelled as the identity on this tree). -/
inductive Json
  | null
  | bool (b : Bool)
  | num (q : ℚ)
  | str (s : String)
  | arr (elems : List Json)
  | obj (fields : List (String × Json))

/-- The `file_info` dict built by `FileEventHandler._process_file_event`
(src/file_listener.py lines 87-92): keys `path`, `operation`,
`file_size`, `timestamp`. -/
structure EventRecord where
  path : String
  operation : String
  file_size : ℚ
  timestamp : ℚ
  deriving DecidableEq, Repr

/-- A valid event record in the sense of the data-model invariant:
non-empty path and an operation drawn from the two produced values
(`"added"` from `on_created`, `"deleted"` from `on_deleted`). -/
def validEventRecord (r : EventRecord) : Prop :=
  r.path ≠ "" ∧ (r.operation = "added" ∨ r.operation = "deleted")

instance (r : EventRecord) : Decidable (validEventRecord r) := by
  unfold validEventRecord
  infer_instance

/-- Embeds `json.dumps(file_info)` in `FileEventHandler._send_event`
(src/file_listener.py line 122): the dict serializes to a JSON object
with its four keys in insertion order. -/
def encodeEvent (r : EventRecord) : Json :=
  .obj [("path", .str r.path), ("operation", .str r.operation),
        ("file_size", .num r.file_size), ("timestamp", .num r.timestamp)]

/-- Key lookup in a decoded JSON object (`event_data['path']` etc.). -/
def jsonLookup (fields : List (String × Json)) (key : String) : Option Json :=
  (fields.find? (fun p => p.1 == key)).map Prod.snd

def Json.asStr : Json → Option String
  | .str s => some s
  | _ => none

def Json.asNum : Json → Option ℚ
  | .num q => some q
  | _ => none

/-- Embeds `json.loads(message.data.decode())` followed by the field accesses
the consumer performs (`process_messages` line 158 and `log_event` lines
119-124 of src/monitor.py): reads `path`, `operation`, `file_size`,
`timestamp` back out of the payload. -/
def decodeEvent : Json → Option EventRecord
  | .obj fields => do
      let p ← (jsonLookup fields "path").bind Json.asStr
      let op ← (jsonLookup fields "operation").bind Json.asStr
      let fs ← (jsonLookup fields "file_size").bind Json.asNum
      let ts ← (jsonLookup fields "timestamp").bind Json.asNum
      some ⟨p, op, fs, ts⟩
  | _ => none

def digitChar (n : Nat) : Char := Char.ofNat (48 + n % 10)

/-- The two digits after the decimal point (`k` is the hundredths
remainder, `0 ≤ k < 100`). -/
def twoDigits (k : Nat) : String := String.mk [digitChar (k / 10), digitChar (k % 10)]

/-- Round to the nearest integer, ties to the even integer — the
rounding Python's `format(..., '.2f')` applies to the scaled value. -/
def roundHalfEven (q : ℚ) : Int :=
  let f := ⌊q⌋
  let frac := q - f
  if frac < 1 / 2 then f
  else if 1 / 2 < frac then f + 1
  else if f % 2 = 0 then f else f + 1

/-- Python's `"{:.2f}".format(q)`: the value rounded to hundredths and
printed with exactly two digits after the decimal point (as used by
`LOG_FORMAT`'s `{file_size:.2f}`, src/config.py line 29). -/
def formatFixed2 (q : ℚ) : String :=
  let n := roundHalfEven (q * 100)
  let sign := if n < 0 then "-" else ""
  let m := n.natAbs
  sign ++ toString (m / 100) ++ "." ++ twoDigits (m % 100)

/-- Embeds `LOG_FORMAT.format(...)` (src/config.py line 29):
`"[{timestamp}] File {operation}: {path}, Size: {file_size:.2f} KB\n"`. -/
def formatLogEntry (timestamp operation path : String) (file_size : ℚ) : String :=
  "[" ++ timestamp ++ "] File " ++ operation ++ ": " ++ path ++
    ", Size: " ++ formatFixed2 file_size ++ " KB\n"

/-- Python's `str.upper` on one character (the operation strings are
ASCII, where `upper` maps `a`-`z` to `A`-`Z` and fixes the rest). -/
def charUpper (c : Char) : Char :=
  if 'a' ≤ c ∧ c ≤ 'z' then Char.ofNat (c.toNat - 32) else c

/-- Python's `str.upper`, as applied in
`event_data['operation'].upper()` (src/monitor.py line 121). -/
def strUpper (s : String) : String := String.mk (s.data.map charUpper)

/-- Embeds `log_event(event_data)` (src/monitor.py lines 105-130).  The log file
is modelled as the list of entries appended so far (`[]` for an absent
file — opening with mode `'a'` creates it); `now` is the
`datetime.datetime.now().strftime(DATE_FORMAT)` string.  Appends exactly
one formatted entry; the format string ends with a single `\n`, so one
entry is one line. -/
def log_event (file : List String) (now : String) (event_data : EventRecord) :
    List String :=
  file ++ [formatLogEntry now (strUpper event_data.operation) event_data.path
    event_data.file_size]

/-- A Python exception relevant to the consumer's per-message handling:
`json.JSONDecodeError` is caught by its own clause, everything else by
the bare `except Exception`. -/
inductive PyExc
  | jsonDecodeError
  | otherExc
  deriving DecidableEq, Repr

/-- Observable effects of handling fetched messages: the log file
afterwards, the number of `message.ack()` calls, and the number of
error-diagnostic prints. -/
structure SinkTrace where
  file : List String
  acks : Nat
  diags : Nat
  deriving DecidableEq, Repr

/-- The body of `for message in messages` in `process_messages`
(src/monitor.py lines 155-173) for one message.  `decodeRes` is what
`json.loads(message.data.decode())` does; `sinkErr` is `some e` when the
`log_event` call raises `e` (a sink failure) and `none` when the write
succeeds.  Control flow follows the source's `try/except` clauses:
decode ok and sink ok → log then ack; `json.JSONDecodeError` → print
diagnostic, ack; any other exception (including a sink failure) → print
diagnostic, ack. -/
def processMessage (file : List String) (now : String)
    (decodeRes : Except PyExc EventRecord) (sinkErr : Option PyExc) : SinkTrace :=
  match decodeRes with
  | .ok ev =>
    match sinkErr with
    | none => ⟨log_event file now ev, 1, 0⟩
    | some _ => ⟨file, 1, 1⟩
  | .error .jsonDecodeError => ⟨file, 1, 1⟩
  | .error .otherExc => ⟨file, 1, 1⟩

/-- The whole `for message in messages` loop: messages are processed and
acknowledged strictly in fetch order, one at a time. -/
def processBatch (now : String) :
    List String → List (Except PyExc EventRecord × Option PyExc) → SinkTrace
  | file, [] => ⟨file, 0, 0⟩
  | file, m :: rest =>
    let r := processMessage file now m.1 m.2
    let rs := processBatch now r.file rest
    ⟨rs.file, r.acks + rs.acks, r.diags + rs.diags⟩

/-- What `await subscription.fetch(1, timeout=1)` does in one iteration
of the consumer loop; each returned message carries its decode outcome
and its sink outcome. -/
inductive FetchEvent
  | msgs (batch : List (Except PyExc EventRecord × Option PyExc))
  | fetchTimeout   -- nats.errors.TimeoutError: normal, no messages
  | cancelled      -- asyncio.CancelledError
  | connClosed     -- nats.errors.ConnectionClosedError
  | otherExc       -- any other exception

/-- Whether the `while` loop goes round again (`next`) or ends this
`process_messages` call (`stop`, via `break` or `return`). -/
inductive LoopControl
  | next
  | stop
  deriving DecidableEq, Repr

structure IterResult where
  file : List String
  acks : Nat
  diags : Nat
  control : LoopControl

/-- One iteration body of the `while not shutdown_requested` loop in
`process_messages` (src/monitor.py lines 150-195), entered after the
loop condition was observed false.  `shutdownMid` is the value of the
shutdown flag at the in-iteration re-checks (lines 178, 185, 190). -/
def iterationStep (now : String) (file : List String) (shutdownMid : Bool)
    (ev : FetchEvent) : IterResult :=
  match ev with
  | .msgs batch =>
    let r := processBatch now file batch
    ⟨r.file, r.acks, r.diags, .next⟩
  | .fetchTimeout => ⟨file, 0, 0, .next⟩          -- sleep 0.5 then poll again
  | .cancelled => ⟨file, 0, 1, .stop⟩             -- print; break
  | .connClosed =>
    if shutdownMid then ⟨file, 0, 0, .next⟩       -- falls through to the loop test
    else ⟨file, 0, 1, .stop⟩                      -- print; return (reconnect in main)
  | .otherExc =>
    if shutdownMid then ⟨file, 0, 0, .next⟩
    else ⟨file, 0, 1, .next⟩                      -- print; sleep 1; poll again

/-- Result of running the consumer loop: the log file, the iteration
indices at which a fetch was issued, and whether the loop ended (as
opposed to the structural-recursion fuel running out while the loop was
still live). -/
structure LoopTrace where
  file : List String
  fetches : List Nat
  ended : Bool
  deriving DecidableEq, Repr

/-- The `while not shutdown_requested` loop of `process_messages`.
`flagHead i` is the shutdown flag as observed by the loop condition
before iteration `i`; `flagMid i` its value at the in-iteration checks;
`fetchEv i` what the fetch in iteration `i` does.  The fetch is the
first statement of the body, so iteration `i` issues a fetch exactly
when the condition observed `flagHead i = false`. -/
def consumerLoop (now : String) (flagHead flagMid : Nat → Bool)
    (fetchEv : Nat → FetchEvent) : Nat → Nat → List String → LoopTrace
  | 0, _, file => ⟨file, [], false⟩
  | fuel + 1, i, file =>
    if flagHead i then ⟨file, [], true⟩
    else
      let r := iterationStep now file (flagMid i) (fetchEv i)
      match r.control with
      | .stop => ⟨r.file, [i], true⟩
      | .next =>
        let t := consumerLoop now flagHead flagMid fetchEv fuel (i + 1) r.file
        ⟨t.file, i :: t.fetches, t.ended⟩

/-- Broker-side JetStream state visible to the provisioning calls: the
streams (name with subject list) and the durable consumers (stream name,
durable name, ack policy, deliver policy) that exist. -/
structure BrokerState where
  streams : List (String × List String)
  consumers : List (String × String × String × String)
  deriving DecidableEq, Repr

/-- Embeds `await self.js.stream_info(stream_name)`: `some subjects` when the
stream exists; `none` models the `nats.errors.Error` raised when it does
not. -/
def stream_info (b : BrokerState) (name : String) : Option (List String) :=
  (b.streams.find? (fun p => p.1 == name)).map Prod.snd

/-- Embeds `await self.js.consumer_info(stream_name, consumer_name)`:
`some (ackPolicy, deliverPolicy)` when the consumer exists; `none`
models the `nats.errors.Error` raised when it does not. -/
def consumer_info (b : BrokerState) (stream consumer : String) :
    Option (String × String) :=
  (b.consumers.find? (fun p => p.1 == stream && p.2.1 == consumer)).map
    (fun p => p.2.2)

/-- Result of a provisioning call: the returned boolean, the broker
state afterwards, and the number of `add_stream` / `add_consumer`
(create) calls performed. -/
structure EnsureResult where
  result : Bool
  broker : BrokerState
  creates : Nat
  deriving DecidableEq, Repr

/-- Embeds `NatsClient.ensure_stream` (src/nats_client.py lines 91-121): not
connected → `False`; stream exists → `True` without touching it;
otherwise `add_stream` then `True`.  The broker metadata calls
themselves are modelled as reliable (the outer `except Exception`
that returns `False` fires only on exogenous broker/network errors). -/
def ensure_stream (st : ClientState) (b : BrokerState) (stream_name : String)
    (subjects : List String) : EnsureResult :=
  if ¬ is_connected st then ⟨false, b, 0⟩
  else
    match stream_info b stream_name with
    | some _ => ⟨true, b, 0⟩
    | none => ⟨true, { b with streams := (stream_name, subjects) :: b.streams }, 1⟩

/-- Embeds `NatsClient.ensure_consumer` (src/nats_client.py lines 123-162):
not connected → `False`; consumer exists → `True` without touching it;
otherwise `add_consumer` with the built `ConsumerConfig` then `True`. -/
def ensure_consumer (st : ClientState) (b : BrokerState)
    (stream_name consumer_name ack_policy deliver_policy : String) : EnsureResult :=
  if ¬ is_connected st then ⟨false, b, 0⟩
  else
    match consumer_info b stream_name consumer_name with
    | some _ => ⟨true, b, 0⟩
    | none =>
      ⟨true,
        { b with consumers :=
            (stream_name, consumer_name, ack_policy, deliver_policy) :: b.consumers },
        1⟩

/-- A Python value held in a dict passed to `publish`: either
JSON-serializable or a value `json.dumps` rejects with `TypeError`. -/
inductive PyVal
  | jsonable (j : Json)
  | nonSerializable

/-- The `data` argument of `NatsClient.publish`: dict, str, or bytes. -/
inductive PublishData
  | dict (fields : List (String × PyVal))
  | strData (s : String)
  | bytesData (b : List Nat)

/-- Whether the data-conversion step of `publish` (lines 181-184 of
src/nats_client.py) succeeds: `json.dumps` on a dict fails exactly when
some value is non-serializable; `str.encode` and raw bytes are total. -/
def serializeOk : PublishData → Bool
  | .dict fields => fields.all (fun p => match p.2 with
      | .jsonable _ => true
      | .nonSerializable => false)
  | .strData _ => true
  | .bytesData _ => true

/-- What `await self.nc.publish(subject, data)` does. -/
inductive SendOutcome
  | accepted
  | sendError
  deriving DecidableEq, Repr

/-- Embeds `NatsClient.publish` (src/nats_client.py lines 164-192).  Returns
the boolean result paired with the number of transport sends performed
(the code has no retry and no buffer, so a failed call performs at most
one send and stores nothing). -/
def publish (st : ClientState) (subject : String) (data : PublishData)
    (send : SendOutcome) : Bool × Nat :=
  if ¬ is_connected st then (false, 0)
  else if serializeOk data then
    match send with
    | .accepted => (true, 1)
    | .sendError => (false, 1)     -- except Exception: print; return False
  else (false, 0)                  -- json.dumps raised; except Exception

/-- What `await subscription.fetch(batch_size, timeout=timeout)` does
inside `fetch_messages`. -/
inductive FetchOutcome (α : Type)
  | msgs (l : List α)
  | timeoutErr    -- nats.errors.TimeoutError
  | otherError    -- any other exception

/-- Embeds `NatsClient.fetch_messages` (src/nats_client.py lines 218-243). -/
def fetch_messages {α : Type} (st : ClientState) (batch_size : Nat)
    (timeout : ℚ) (res : FetchOutcome α) : List α :=
  if ¬ is_connected st then []
  else
    match res with
    | .msgs l => l
    | .timeoutErr => []     -- normal when no messages are available
    | .otherError => []     -- except Exception: print; return []

theorem geomList_eq_map : ∀ (n d : Nat),
    geomList d n = (List.range n).map (fun i => 2 ^ i * d) := by
  intro n
  induction n with
  | zero => intro d; simp [geomList]
  | succ m ih =>
    intro d
    rw [geomList, ih (d * 2), List.range_succ_eq_map, List.map_cons, List.map_map]
    refine congrArg₂ _ (by simp) ?_
    apply List.map_congr_left
    intro i _
    simp only [Function.comp, pow_succ]
    ring

/-- One unfolding of `connectLoop` on a transient failure that still has
retry budget: the loop sleeps `d`, doubles the delay, and re-enters. -/
theorem connectLoop_transient_step (outcome : Nat → AttemptOutcome)
    (maxRetries fuel ra d : Nat) (h : (outcome ra).isTransient = true)
    (hlt : ra + 1 < maxRetries) :
    connectLoop outcome maxRetries (fuel + 1) ra d =
      let r := connectLoop outcome maxRetries fuel (ra + 1) (d * 2)
      ⟨r.state, r.result, r.attempts + 1, d :: r.sleeps⟩ := by
  cases hout : outcome ra <;> simp [hout, AttemptOutcome.isTransient] at h <;>
    simp [connectLoop, hout, hlt]

/-- A transient failure with no retry budget left returns `False` after
this single attempt, with no sleep. -/
theorem connectLoop_transient_last (outcome : Nat → AttemptOutcome)
    (maxRetries fuel ra d : Nat) (h : (outcome ra).isTransient = true)
    (hlt : ¬ ra + 1 < maxRetries) :
    connectLoop outcome maxRetries (fuel + 1) ra d = ⟨⟨false⟩, false, 1, []⟩ := by
  cases hout : outcome ra <;> simp [hout, AttemptOutcome.isTransient] at h <;>
    simp [connectLoop, hout, hlt]

/-- Closed form of the retry loop when every attempt fails transiently:
the loop performs exactly `fuel` further attempts and sleeps
`d, 2*d, 4*d, ...` (`fuel - 1` sleeps), then returns `False`. -/
theorem connectLoop_all_transient (outcome : Nat → AttemptOutcome)
    (maxRetries : Nat) (hall : ∀ i, (outcome i).isTransient = true) :
    ∀ fuel ra d, 1 ≤ fuel → fuel + ra = maxRetries →
      connectLoop outcome maxRetries fuel ra d =
        ⟨⟨false⟩, false, fuel, geomList d (fuel - 1)⟩ := by
  intro fuel
  induction fuel with
  | zero => intro ra d h; omega
  | succ n ih =>
    intro ra d _ hsum
    rcases n with _ | m
    · exact connectLoop_transient_last outcome maxRetries 0 ra d (hall ra) (by omega)
    · rw [connectLoop_transient_step outcome maxRetries (m + 1) ra d (hall ra) (by omega)]
      rw [ih (ra + 1) (d * 2) (by omega) (by omega)]
      rfl

theorem geomList_length (n : Nat) : ∀ d, (geomList d n).length = n := by
  induction n with
  | zero => intro d; rfl
  | succ m ih => intro d; simp [geomList, ih (d * 2)]

/-- Consecutive entries of `geomList` strictly double. -/
theorem geomList_get_succ (n d i : Nat) (h1 : i + 1 < (geomList d n).length)
    (h0 : i < (geomList d n).length) :
    (geomList d n).get ⟨i + 1, h1⟩ = 2 * (geomList d n).get ⟨i, h0⟩ := by
  simp only [geomList_eq_map, List.get_eq_getElem, List.getElem_map,
    List.getElem_range]
  ring

/-- C2 (corrected): with no connection yet, `maxRetries ≥ 1`,
`initialDelay ≥ 1` and every attempt failing transiently,
`NatsClient.connect` returns `False` after exactly `maxRetries` attempts
(not `maxRetries + 1`), sleeping `maxRetries - 1` times with delays that
start at `initialDelay` and strictly double between consecutive transient
failures. -/
theorem connect_backoff_fails_at_maxRetries (maxRetries d : Nat)
    (outcome : Nat → AttemptOutcome) (h1 : 1 ≤ maxRetries) (h2 : 1 ≤ d)
    (hall : ∀ i, (outcome i).isTransient = true) :
    (connect ⟨false⟩ outcome maxRetries d).result = false ∧
    (connect ⟨false⟩ outcome maxRetries d).attempts = maxRetries ∧
    (connect ⟨false⟩ outcome maxRetries d).sleeps = geomList d (maxRetries - 1) ∧
    (connect ⟨false⟩ outcome maxRetries d).sleeps.head? =
      (if 2 ≤ maxRetries then some d else none) ∧
    (∀ i (ha : i + 1 < (connect ⟨false⟩ outcome maxRetries d).sleeps.length)
      (hb : i < (connect ⟨false⟩ outcome maxRetries d).sleeps.length),
      (connect ⟨false⟩ outcome maxRetries d).sleeps.get ⟨i + 1, ha⟩ =
        2 * (connect ⟨false⟩ outcome maxRetries d).sleeps.get ⟨i, hb⟩) := by
  have hc : connect ⟨false⟩ outcome maxRetries d =
      ⟨⟨false⟩, false, maxRetries, geomList d (maxRetries - 1)⟩ := by
    unfold connect
    simp only [is_connected, if_neg (by simp : ¬ (false : Bool) = true)]
    exact connectLoop_all_transient outcome maxRetries hall maxRetries 0 d h1 (by omega)
  rw [hc]
  refine ⟨rfl, rfl, rfl, ?_, ?_⟩
  · rcases maxRetries with _ | _ | k
    · omega
    · simp [geomList]
    · simp [geomList]
  · intro i ha hb
    exact geomList_get_succ (maxRetries - 1) d i ha hb

/-- Witness for C2's corrected theorem at `maxRetries = 3`,
`initialDelay = 2`, all attempts timing out. -/
theorem connect_backoff_fails_at_maxRetries_witness :
    (connect ⟨false⟩ (fun _ => AttemptOutcome.timeoutErr) 3 2).result = false ∧
    (connect ⟨false⟩ (fun _ => AttemptOutcome.timeoutErr) 3 2).attempts = 3 ∧
    (connect ⟨false⟩ (fun _ => AttemptOutcome.timeoutErr) 3 2).sleeps = geomList 2 (3 - 1) ∧
    (connect ⟨false⟩ (fun _ => AttemptOutcome.timeoutErr) 3 2).sleeps.head? =
      (if 2 ≤ 3 then some 2 else none) ∧
    (∀ i (ha : i + 1 < (connect ⟨false⟩ (fun _ => AttemptOutcome.timeoutErr) 3 2).sleeps.length)
      (hb : i < (connect ⟨false⟩ (fun _ => AttemptOutcome.timeoutErr) 3 2).sleeps.length),
      (connect ⟨false⟩ (fun _ => AttemptOutcome.timeoutErr) 3 2).sleeps.get ⟨i + 1, ha⟩ =
        2 * (connect ⟨false⟩ (fun _ => AttemptOutcome.timeoutErr) 3 2).sleeps.get ⟨i, hb⟩) :=
  connect_backoff_fails_at_maxRetries 3 2 (fun _ => AttemptOutcome.timeoutErr)
    (by decide) (by decide) (fun _ => rfl)

/-- C2 (counterexample to the claim as stated): with `maxRetries = 3` and
`initialDelay = 2` and every attempt failing transiently, the call fails
permanently at attempt number 3 = `maxRetries`, not at
`maxRetries + 1 = 4`: the first attempt already counts against the retry
budget. -/
theorem connect_attempts_ne_maxRetries_succ :
    (connect ⟨false⟩ (fun _ => AttemptOutcome.timeoutErr) 3 2).attempts = 3 ∧
    (connect ⟨false⟩ (fun _ => AttemptOutcome.timeoutErr) 3 2).attempts ≠ 3 + 1 := by
  constructor
  · rfl
  · decide

/-- C9: `connect` on an already-connected client returns `True`
immediately: no connection attempt, no sleep, state unchanged, for every
`maxRetries` and `retryDelay`. -/
theorem connect_noop_when_connected (st : ClientState)
    (outcome : Nat → AttemptOutcome) (maxRetries retryDelay : Nat)
    (h : is_connected st = true) :
    connect st outcome maxRetries retryDelay = ⟨st, true, 0, []⟩ := by
  simp [connect, h]

/-- Witness for C9 at a connected state with `maxRetries = 5`,
`retryDelay = 7`. -/
theorem connect_noop_when_connected_witness :
    is_connected ⟨true⟩ = true ∧
    connect ⟨true⟩ (fun _ => AttemptOutcome.otherError) 5 7 = ⟨⟨true⟩, true, 0, []⟩ :=
  ⟨rfl, connect_noop_when_connected ⟨true⟩ (fun _ => AttemptOutcome.otherError) 5 7 rfl⟩

theorem processMessage_acks (file : List String) (now : String)
    (decodeRes : Except PyExc EventRecord) (sinkErr : Option PyExc) :
    (processMessage file now decodeRes sinkErr).acks = 1 := by
  cases decodeRes with
  | error e => cases e <;> rfl
  | ok ev => cases sinkErr <;> rfl

/-- C1: every message delivered by a fetch is acknowledged exactly once
before the loop fetches again, whatever the decode and sink outcomes:
one message body performs exactly one ack on every path, and a fetched
batch of `n` messages performs exactly `n` acks before the iteration
ends. -/
theorem every_fetched_message_acked_once (now : String) :
    (∀ (file : List String) (decodeRes : Except PyExc EventRecord)
      (sinkErr : Option PyExc),
      (processMessage file now decodeRes sinkErr).acks = 1) ∧
    (∀ (file : List String)
      (msgs : List (Except PyExc EventRecord × Option PyExc)),
      (processBatch now file msgs).acks = msgs.length) := by
  constructor
  · exact fun file d s => processMessage_acks file now d s
  · intro file msgs
    induction msgs generalizing file with
    | nil => rfl
    | cons m rest ih =>
      simp only [processBatch, List.length_cons, processMessage_acks, ih]
      omega

/-- C3: the JSON decode used by the consumer composed with the JSON
encode used by the publisher is the identity on valid event records
(field-for-field). -/
theorem decode_encode_roundtrip (r : EventRecord) (h : validEventRecord r) :
    decodeEvent (encodeEvent r) = some r := rfl

/-- Witness for C3 at the record from the spec's scenario. -/
theorem decode_encode_roundtrip_witness :
    validEventRecord ⟨"/x/a.txt", "added", 25 / 2, 1700000000⟩ ∧
    decodeEvent (encodeEvent ⟨"/x/a.txt", "added", 25 / 2, 1700000000⟩) =
      some ⟨"/x/a.txt", "added", 25 / 2, 1700000000⟩ :=
  ⟨⟨by decide, Or.inl rfl⟩,
    decode_encode_roundtrip ⟨"/x/a.txt", "added", 25 / 2, 1700000000⟩
      ⟨by decide, Or.inl rfl⟩⟩

/-- C5: an iteration whose fetch returns one message with a malformed
(non-JSON) payload writes no log line, acknowledges the message exactly
once, emits exactly one diagnostic, and continues polling (whatever the
sink would have done). -/
theorem malformed_payload_iteration (now : String) (file : List String)
    (shutdownMid : Bool) (sinkErr : Option PyExc) :
    (iterationStep now file shutdownMid
      (.msgs [(Except.error PyExc.jsonDecodeError, sinkErr)])).file = file ∧
    (iterationStep now file shutdownMid
      (.msgs [(Except.error PyExc.jsonDecodeError, sinkErr)])).acks = 1 ∧
    (iterationStep now file shutdownMid
      (.msgs [(Except.error PyExc.jsonDecodeError, sinkErr)])).diags = 1 ∧
    (iterationStep now file shutdownMid
      (.msgs [(Except.error PyExc.jsonDecodeError, sinkErr)])).control = .next :=
  ⟨rfl, rfl, rfl, rfl⟩

/-- C4: on a connected client, `ensure_stream` and `ensure_consumer`
called twice in succession with the same spec return `True` both times,
and the second call performs no create and leaves the broker state
unchanged. -/
theorem ensure_provisioning_idempotent (st : ClientState) (b c : BrokerState)
    (stream_name : String) (subjects : List String)
    (cstream cname ack deliver : String) (h : is_connected st = true) :
    ((ensure_stream st b stream_name subjects).result = true ∧
     (ensure_stream st (ensure_stream st b stream_name subjects).broker
        stream_name subjects).result = true ∧
     (ensure_stream st (ensure_stream st b stream_name subjects).broker
        stream_name subjects).creates = 0 ∧
     (ensure_stream st (ensure_stream st b stream_name subjects).broker
        stream_name subjects).broker =
       (ensure_stream st b stream_name subjects).broker) ∧
    ((ensure_consumer st c cstream cname ack deliver).result = true ∧
     (ensure_consumer st (ensure_consumer st c cstream cname ack deliver).broker
        cstream cname ack deliver).result = true ∧
     (ensure_consumer st (ensure_consumer st c cstream cname ack deliver).broker
        cstream cname ack deliver).creates = 0 ∧
     (ensure_consumer st (ensure_consumer st c cstream cname ack deliver).broker
        cstream cname ack deliver).broker =
       (ensure_consumer st c cstream cname ack deliver).broker) := by
  constructor
  · cases hs : stream_info b stream_name with
    | some subs => simp [ensure_stream, h, hs]
    | none =>
      have h2 : stream_info { b with streams := (stream_name, subjects) :: b.streams }
          stream_name = some subjects := by
        simp [stream_info, List.find?]
      simp [ensure_stream, h, hs, h2]
  · cases hc : consumer_info c cstream cname with
    | some p => simp [ensure_consumer, h, hc]
    | none =>
      have h2 : consumer_info
          { c with consumers := (cstream, cname, ack, deliver) :: c.consumers }
          cstream cname = some (ack, deliver) := by
        simp [consumer_info, List.find?]
      simp [ensure_consumer, h, hc, h2]

/-- Witness for C4 on an empty broker with the configured names
(`FILES`, `file.events`, `file-monitor`, `explicit`, `new`). -/
theorem ensure_provisioning_idempotent_witness :
    is_connected ⟨true⟩ = true ∧
    (((ensure_stream ⟨true⟩ ⟨[], []⟩ "FILES" ["file.events"]).result = true ∧
     (ensure_stream ⟨true⟩ (ensure_stream ⟨true⟩ ⟨[], []⟩ "FILES" ["file.events"]).broker
        "FILES" ["file.events"]).result = true ∧
     (ensure_stream ⟨true⟩ (ensure_stream ⟨true⟩ ⟨[], []⟩ "FILES" ["file.events"]).broker
        "FILES" ["file.events"]).creates = 0 ∧
     (ensure_stream ⟨true⟩ (ensure_stream ⟨true⟩ ⟨[], []⟩ "FILES" ["file.events"]).broker
        "FILES" ["file.events"]).broker =
       (ensure_stream ⟨true⟩ ⟨[], []⟩ "FILES" ["file.events"]).broker) ∧
    ((ensure_consumer ⟨true⟩ ⟨[], []⟩ "FILES" "file-monitor" "explicit" "new").result = true ∧
     (ensure_consumer ⟨true⟩
        (ensure_consumer ⟨true⟩ ⟨[], []⟩ "FILES" "file-monitor" "explicit" "new").broker
        "FILES" "file-monitor" "explicit" "new").result = true ∧
     (ensure_consumer ⟨true⟩
        (ensure_consumer ⟨true⟩ ⟨[], []⟩ "FILES" "file-monitor" "explicit" "new").broker
        "FILES" "file-monitor" "explicit" "new").creates = 0 ∧
     (ensure_consumer ⟨true⟩
        (ensure_consumer ⟨true⟩ ⟨[], []⟩ "FILES" "file-monitor" "explicit" "new").broker
        "FILES" "file-monitor" "explicit" "new").broker =
       (ensure_consumer ⟨true⟩ ⟨[], []⟩ "FILES" "file-monitor" "explicit" "new").broker)) :=
  ⟨rfl, ensure_provisioning_idempotent ⟨true⟩ ⟨[], []⟩ ⟨[], []⟩ "FILES" ["file.events"]
    "FILES" "file-monitor" "explicit" "new" rfl⟩

/-- C8: `publish` is total and reports failure as a boolean: `False`
when not connected, when serialization fails, or when the transport send
fails; `True` exactly when the connected client serializes the data and
the send is accepted; and at most one send is performed (no retry, no
buffering). -/
theorem publish_reports_boolean_no_retry (st : ClientState) (subject : String)
    (data : PublishData) (send : SendOutcome) :
    (is_connected st = false → (publish st subject data send).1 = false) ∧
    (serializeOk data = false → (publish st subject data send).1 = false) ∧
    (send = .sendError → (publish st subject data send).1 = false) ∧
    ((publish st subject data send).1 = true ↔
      (is_connected st = true ∧ serializeOk data = true ∧ send = .accepted)) ∧
    (publish st subject data send).2 ≤ 1 := by
  by_cases hc : is_connected st <;> by_cases hs : serializeOk data <;>
    cases send <;> simp [publish, hc, hs]

/-- Witness for C8 at a connected client publishing the configured
subject with a string payload that the transport accepts. -/
theorem publish_reports_boolean_no_retry_witness :
    (is_connected ⟨true⟩ = false →
      (publish ⟨true⟩ "file.events" (.strData "x") .accepted).1 = false) ∧
    (serializeOk (.strData "x") = false →
      (publish ⟨true⟩ "file.events" (.strData "x") .accepted).1 = false) ∧
    (SendOutcome.accepted = .sendError →
      (publish ⟨true⟩ "file.events" (.strData "x") .accepted).1 = false) ∧
    ((publish ⟨true⟩ "file.events" (.strData "x") .accepted).1 = true ↔
      (is_connected ⟨true⟩ = true ∧ serializeOk (.strData "x") = true ∧
        SendOutcome.accepted = .accepted)) ∧
    (publish ⟨true⟩ "file.events" (.strData "x") .accepted).2 ≤ 1 :=
  publish_reports_boolean_no_retry ⟨true⟩ "file.events" (.strData "x") .accepted

/-- C10: `fetch_messages` always returns a list, and returns the empty
list on every failure path: client not connected, fetch timeout, or any
other fetch error; a successful fetch on a connected client returns its
batch unchanged. -/
theorem fetch_messages_empty_on_failure {α : Type} (st : ClientState)
    (batch_size : Nat) (timeout : ℚ) :
    (∀ res : FetchOutcome α, is_connected st = false →
      fetch_messages st batch_size timeout res = []) ∧
    fetch_messages st batch_size timeout (FetchOutcome.timeoutErr : FetchOutcome α) = [] ∧
    fetch_messages st batch_size timeout (FetchOutcome.otherError : FetchOutcome α) = [] ∧
    (∀ l : List α, is_connected st = true →
      fetch_messages st batch_size timeout (FetchOutcome.msgs l) = l) := by
  refine ⟨?_, ?_, ?_, ?_⟩
  · intro res hst
    simp [fetch_messages, hst]
  · by_cases hst : is_connected st <;> simp [fetch_messages, hst]
  · by_cases hst : is_connected st <;> simp [fetch_messages, hst]
  · intro l hst
    simp [fetch_messages, hst]

/-- Witness for C10 with string messages: disconnected client and
timeout both yield `[]`; a delivered batch comes back unchanged. -/
theorem fetch_messages_empty_on_failure_witness :
    ((∀ res : FetchOutcome String, is_connected ⟨false⟩ = false →
      fetch_messages ⟨false⟩ 1 1 res = []) ∧
    fetch_messages ⟨false⟩ 1 1 (FetchOutcome.timeoutErr : FetchOutcome String) = [] ∧
    fetch_messages ⟨false⟩ 1 1 (FetchOutcome.otherError : FetchOutcome String) = [] ∧
    (∀ l : List String, is_connected ⟨false⟩ = true →
      fetch_messages ⟨false⟩ 1 1 (FetchOutcome.msgs l) = l)) ∧
    ((∀ res : FetchOutcome String, is_connected ⟨true⟩ = false →
      fetch_messages ⟨true⟩ 1 1 res = []) ∧
    fetch_messages ⟨true⟩ 1 1 (FetchOutcome.timeoutErr : FetchOutcome String) = [] ∧
    fetch_messages ⟨true⟩ 1 1 (FetchOutcome.otherError : FetchOutcome String) = [] ∧
    (∀ l : List String, is_connected ⟨true⟩ = true →
      fetch_messages ⟨true⟩ 1 1 (FetchOutcome.msgs l) = l)) :=
  ⟨fetch_messages_empty_on_failure ⟨false⟩ 1 1,
    fetch_messages_empty_on_failure ⟨true⟩ 1 1⟩

/-- One unfolding of the consumer loop when the loop condition observes
the shutdown flag unset: the body runs (issuing its fetch). -/
theorem consumerLoop_step (now : String) (flagHead flagMid : Nat → Bool)
    (fetchEv : Nat → FetchEvent) (fuel i : Nat) (file : List String)
    (h : flagHead i = false) :
    consumerLoop now flagHead flagMid fetchEv (fuel + 1) i file =
      match (iterationStep now file (flagMid i) (fetchEv i)).control with
      | .stop => ⟨(iterationStep now file (flagMid i) (fetchEv i)).file, [i], true⟩
      | .next =>
        ⟨(consumerLoop now flagHead flagMid fetchEv fuel (i + 1)
            (iterationStep now file (flagMid i) (fetchEv i)).file).file,
         i :: (consumerLoop now flagHead flagMid fetchEv fuel (i + 1)
            (iterationStep now file (flagMid i) (fetchEv i)).file).fetches,
         (consumerLoop now flagHead flagMid fetchEv fuel (i + 1)
            (iterationStep now file (flagMid i) (fetchEv i)).file).ended⟩ := by
  simp only [consumerLoop, h, Bool.false_eq_true, if_false]

/-- C6: the consumer loop issues a fetch only after observing the
shutdown flag unset at the loop head (every index in the fetch trace saw
`flagHead = false`), and once the loop head observes the flag set the
loop issues no fetch and terminates at once. -/
theorem shutdown_flag_stops_fetches (now : String) (flagHead flagMid : Nat → Bool)
    (fetchEv : Nat → FetchEvent) :
    (∀ fuel i file j,
      j ∈ (consumerLoop now flagHead flagMid fetchEv fuel i file).fetches →
      flagHead j = false) ∧
    (∀ fuel i file, flagHead i = true →
      consumerLoop now flagHead flagMid fetchEv (fuel + 1) i file = ⟨file, [], true⟩) := by
  constructor
  · intro fuel
    induction fuel with
    | zero =>
      intro i file j hj
      simp [consumerLoop] at hj
    | succ n ih =>
      intro i file j hj
      by_cases hf : flagHead i
      · simp [consumerLoop, hf] at hj
      · rw [consumerLoop_step now flagHead flagMid fetchEv n i file
          (by simp [hf])] at hj
        cases hc : (iterationStep now file (flagMid i) (fetchEv i)).control
        · rw [hc] at hj  -- placeholder, fixed below
          simp at hj
          rcases hj with hj | hj
          · subst hj; simp [hf]
          · exact ih (i + 1) _ j hj
        · rw [hc] at hj
          simp at hj
          subst hj; simp [hf]
  · intro fuel i file h
    simp [consumerLoop, h]

/-- Witness for C6: flag set from iteration 2 on, fetches only at
iterations 0 and 1, and a loop started at an iteration whose flag is set
terminates at once with no fetch. -/
theorem shutdown_flag_stops_fetches_witness :
    (∀ fuel i file j,
      j ∈ (consumerLoop "t" (fun i => decide (2 ≤ i)) (fun _ => false)
        (fun _ => FetchEvent.fetchTimeout) fuel i file).fetches →
      decide (2 ≤ j) = false) ∧
    (∀ fuel i file, decide (2 ≤ i) = true →
      consumerLoop "t" (fun i => decide (2 ≤ i)) (fun _ => false)
        (fun _ => FetchEvent.fetchTimeout) (fuel + 1) i file = ⟨file, [], true⟩) :=
  shutdown_flag_stops_fetches "t" (fun i => decide (2 ≤ i)) (fun _ => false)
    (fun _ => FetchEvent.fetchTimeout)

theorem appendMergeAdded (X : String) :
    "] File " ++ ("ADDED" ++ (": " ++ X)) = "] File ADDED: " ++ X := by
  have h : ("] File " ++ "ADDED" ++ ": " : String) = "] File ADDED: " := by decide
  rw [← String.append_assoc, ← String.append_assoc, h]

theorem appendMergeDeleted (X : String) :
    "] File " ++ ("DELETED" ++ (": " ++ X)) = "] File DELETED: " ++ X := by
  have h : ("] File " ++ "DELETED" ++ ": " : String) = "] File DELETED: " := by decide
  rw [← String.append_assoc, ← String.append_assoc, h]

/-- C7: `log_event` appends exactly one entry of the form
`[<now>] File ADDED: <path>, Size: <size with exactly 2 decimals> KB`
(and `File DELETED` for `"deleted"`), starting from any prior file
contents (the empty list models an absent file, created on append);
`12.5` KB formats as `12.50`. -/
theorem log_event_appends_formatted_line (file : List String) (now p : String)
    (s t : ℚ) :
    log_event file now ⟨p, "added", s, t⟩ =
      file ++ ["[" ++ now ++ "] File ADDED: " ++ p ++ ", Size: " ++
        formatFixed2 s ++ " KB\n"] ∧
    log_event file now ⟨p, "deleted", s, t⟩ =
      file ++ ["[" ++ now ++ "] File DELETED: " ++ p ++ ", Size: " ++
        formatFixed2 s ++ " KB\n"] ∧
    (log_event file now ⟨p, "added", s, t⟩).length = file.length + 1 ∧
    (∃ ip fp : String, formatFixed2 s = ip ++ "." ++ fp ∧ fp.length = 2) ∧
    formatFixed2 (25 / 2 : ℚ) = "12.50" := by
  have hA : strUpper "added" = "ADDED" := by decide
  have hD : strUpper "deleted" = "DELETED" := by decide
  refine ⟨?_, ?_, ?_, ?_, ?_⟩
  · simp only [log_event, hA, formatLogEntry, String.append_assoc]
    rw [appendMergeAdded]
  · simp only [log_event, hD, formatLogEntry, String.append_assoc]
    rw [appendMergeDeleted]
  · simp [log_event]
  · exact ⟨(if roundHalfEven (s * 100) < 0 then "-" else "") ++
      toString ((roundHalfEven (s * 100)).natAbs / 100),
      twoDigits ((roundHalfEven (s * 100)).natAbs % 100), rfl, rfl⟩
  · have h1 : (25 / 2 : ℚ) * 100 = (1250 : ℚ) := by norm_num
    have h2 : roundHalfEven (1250 : ℚ) = 1250 := by rw [roundHalfEven]; norm_num
    rw [formatFixed2, h1, h2]
    decide

end NatsEvents
